import Mathlib

set_option maxRecDepth 8000

/-!  A formal model of `src/slae_test_suite/ResultsLogger.py`.

Python strings are modelled as `List Char`, Python `datetime` instants as
natural numbers (microseconds since an arbitrary epoch), and the mutable
state of the module as explicit values threaded through the operations.
Python statements that can raise are modelled with `Except`.
-/

/-- Python `str.split(sep)` for a one-character separator:
`"".split(sep) = [""]`, and every occurrence of `sep` splits. -/
def pySplit (sep : Char) : List Char → List (List Char)
  | [] => [[]]
  | c :: rest =>
    if c = sep then [] :: pySplit sep rest
    else
      match pySplit sep rest with
      | r :: rs => (c :: r) :: rs
      | [] => [[c]]

/-- Python `sep.join(parts)`. -/
def joinSep (sep : List Char) : List (List Char) → List Char
  | [] => []
  | [x] => x
  | x :: y :: xs => x ++ sep ++ joinSep sep (y :: xs)

/-- Decimal digits of a natural number; fuel-based so that it reduces
inside `decide` / `rfl`. -/
def natToCharsAux : Nat → Nat → List Char
  | 0, _ => []
  | fuel + 1, n =>
    if n < 10 then [Nat.digitChar n]
    else natToCharsAux fuel (n / 10) ++ [Nat.digitChar (n % 10)]

/-- Python `str(n)` for a natural number. -/
def natToChars (n : Nat) : List Char := natToCharsAux (n + 1) n

/-- Zero padding on the left, as in Python format specifiers `02`/`06`. -/
def padZeros (w : Nat) (s : List Char) : List Char :=
  List.replicate (w - s.length) '0' ++ s

/-- Python `str(timedelta)` for a nonnegative duration given in
microseconds: `[D day(s), ]H:MM:SS[.ffffff]`. -/
def timedeltaStr (n : Nat) : List Char :=
  (if n / 1000000 / 86400 = 0 then []
   else natToChars (n / 1000000 / 86400) ++
     (if n / 1000000 / 86400 = 1 then " day, ".data else " days, ".data)) ++
  natToChars (n / 1000000 / 3600 % 24) ++
  ':' :: padZeros 2 (natToChars (n / 1000000 / 60 % 60)) ++
  ':' :: padZeros 2 (natToChars (n / 1000000 % 60)) ++
  (if n % 1000000 = 0 then [] else '.' :: padZeros 6 (natToChars (n % 1000000)))

/-- Round `a / b` to the nearest integer, ties to the even neighbour.
The source divides two Python ints producing a float and formats it with
`:.2f`; the float arithmetic is modelled as exact rational arithmetic
with decimal rounding. -/
def roundHalfEven (a b : Nat) : Nat :=
  if 2 * (a % b) < b then a / b
  else if b < 2 * (a % b) then a / b + 1
  else if (a / b) % 2 = 0 then a / b else a / b + 1

/-- The source's `f"\x7b(correct / total * 100):.2f\x7d"`: the accuracy
ratio as a percentage with two decimal places. -/
def fmt2 (correct total : Nat) : List Char :=
  natToChars (roundHalfEven (correct * 10000) total / 100) ++
  '.' :: padZeros 2 (natToChars (roundHalfEven (correct * 10000) total % 100))

/-- UTF-8 encoding of one Unicode scalar value (Python `str.encode()`). -/
def utf8Char (c : Char) : List Nat :=
  if c.toNat < 128 then [c.toNat]
  else if c.toNat < 2048 then
    [192 + c.toNat / 64, 128 + c.toNat % 64]
  else if c.toNat < 65536 then
    [224 + c.toNat / 4096, 128 + c.toNat / 64 % 64, 128 + c.toNat % 64]
  else
    [240 + c.toNat / 262144, 128 + c.toNat / 4096 % 64,
     128 + c.toNat / 64 % 64, 128 + c.toNat % 64]

/-- UTF-8 encoding of a whole string. -/
def utf8Encode (s : List Char) : List Nat := (s.map utf8Char).flatten

/-- The base64 alphabet. -/
def b64Char (n : Nat) : Char :=
  ("ABCDEFGHIJKLMNOPQRSTUVWXYZabcdefghijklmnopqrstuvwxyz0123456789+/".data).getD n 'A'

/-- Standard base64 with `=` padding (Python `base64.b64encode`). -/
def base64Encode : List Nat → List Char
  | [] => []
  | [a] => [b64Char (a / 4), b64Char (a % 4 * 16), '=', '=']
  | [a, b] => [b64Char (a / 4), b64Char (a % 4 * 16 + b / 16), b64Char (b % 16 * 4), '=']
  | a :: b :: c :: rest =>
    b64Char (a / 4) :: b64Char (a % 4 * 16 + b / 16) ::
    b64Char (b % 16 * 4 + c / 64) :: b64Char (c % 64) :: base64Encode rest

/-! ### The CSV writer of the source (`csv.writer` with `QUOTE_ALL`)
and a CSV reader used to state the round-trip property. -/

/-- Double every quote character: the escaping rule of Python's csv writer. -/
def escapeField : List Char → List Char
  | [] => []
  | c :: rest => if c = '\"' then '\"' :: '\"' :: escapeField rest else c :: escapeField rest

/-- One field under `csv.QUOTE_ALL`: always wrapped in quotes. -/
def writeField (f : List Char) : List Char := '\"' :: (escapeField f ++ ['\"'])

/-- One record: quoted fields joined by commas, terminated by CRLF
(the default line terminator of Python's csv writer).  `writerow([])`
produces a bare CRLF. -/
def writeRow (fs : List (List Char)) : List Char :=
  joinSep [','] (fs.map writeField) ++ ['\r', '\n']

/-- A whole CSV document. -/
def writeCsv (rows : List (List (List Char))) : List Char := (rows.map writeRow).flatten

/-- Read the body of one quoted field, after its opening quote: a doubled
quote is a literal quote, a single quote closes the field.  Fuel-based so
that it reduces inside `decide`. -/
def parseQuotedF : Nat → List Char → Option (List Char × List Char)
  | 0, _ => none
  | _ + 1, [] => none
  | fuel + 1, c :: rest =>
    if c = '\"' then
      match rest with
      | [] => some ([], [])
      | c2 :: rest2 =>
        if c2 = '\"' then
          match parseQuotedF fuel rest2 with
          | some (f, r) => some ('\"' :: f, r)
          | none => none
        else some ([], c2 :: rest2)
    else
      match parseQuotedF fuel rest with
      | some (f, r) => some (c :: f, r)
      | none => none

/-- Read the fields of one nonempty record: quoted fields separated by
commas, terminated by CRLF. -/
def parseFieldsF : Nat → List Char → Option (List (List Char) × List Char)
  | 0, _ => none
  | _ + 1, [] => none
  | fuel + 1, c :: rest =>
    if c = '\"' then
      match parseQuotedF (rest.length + 1) rest with
      | some (f, ',' :: rest2) =>
        match parseFieldsF fuel rest2 with
        | some (fs, r) => some (f :: fs, r)
        | none => none
      | some (f, '\r' :: '\n' :: rest2) => some ([f], rest2)
      | some _ => none
      | none => none
    else none

/-- Read a sequence of records until the end of input; a bare CRLF is an
empty record. -/
def parseRecordsF : Nat → List Char → Option (List (List (List Char)))
  | _, [] => some []
  | 0, _ :: _ => none
  | fuel + 1, c :: s =>
    if c = '\r' then
      match s with
      | '\n' :: rest =>
        match parseRecordsF fuel rest with
        | some rs => some ([] :: rs)
        | none => none
      | _ => none
    else
      match parseFieldsF ((c :: s).length + 1) (c :: s) with
      | some (fs, rest) =>
        match parseRecordsF fuel rest with
        | some rs => some (fs :: rs)
        | none => none
      | none => none

/-- Parse a whole CSV document into its records. -/
def parseCsv (s : List Char) : Option (List (List (List Char))) :=
  parseRecordsF (s.length + 1) s

/-! ### The data model of `ResultsLogger.py` -/

/-- `class Result`: one classification comparison; all five fields are
stored verbatim. -/
structure Result where
  document_name : List Char
  independent_variable : List Char
  dependent_variable : List Char
  predicted_classification : List Char
  coded_classification : List Char
deriving DecidableEq

/-- `Result.to_csv_row`. -/
def Result.to_csv_row (r : Result) : List (List Char) :=
  [r.document_name, r.independent_variable, r.dependent_variable,
   r.predicted_classification, r.coded_classification]

/-- The class-level mutable containers of `_ResultsLogger`.  In the source
`__data: List[Result] = []` and `__unique_documents: Set[str] = set()` are
class attributes: the list and the set are created once when the class body
runs and are shared by every instance (`__init__` never rebinds them, and
`append`/`add` mutate them in place).  They are therefore modelled as a
separate state value, distinct from the per-instance state, and
`construct` below does not touch it. -/
structure ClassState where
  data : List Result
  unique_documents : Finset (List Char)
deriving DecidableEq

/-- The class containers as they are right after the module is imported. -/
def initialClassState : ClassState := { data := [], unique_documents := ∅ }

/-- The per-instance attributes of `_ResultsLogger`.  `__total_correct`
and `__runtime` are also class-level defaults (`0` and `None`), but both
are only ever rebound through `self.__x = ...` / `self.__x += ...`, which
create instance attributes, so they behave per-instance and are modelled
here.  In the disabled constructor the four provenance strings are never
assigned in CPython; they are modelled as `[]`, and no disabled code path
reads them. -/
structure LoggerState where
  is_verbose : Bool
  is_enabled : Bool
  pipeline_repo_url : List Char
  commit_hash : List Char
  executed_by : List Char
  date_time : List Char
  runtime : Option Nat
  total_correct : Nat
deriving DecidableEq

/-- The observable external actions of the logger, in program order. -/
inductive Effect where
  | print (line : List Char)
  | runGit (argv : List (List Char))
  | httpPut (url : List Char) (authorization : List Char) (accept : List Char)
      (message : List Char) (content : List Char)
  | writeFile (name : List Char) (content : List Char)
deriving DecidableEq

/-- Exceptions raised by the modelled Python statements. -/
inductive PyError where
  | typeError
  | zeroDivisionError
  | jsonDecodeError
deriving DecidableEq

/-- One `subprocess.run` result: exit status, captured stdout and stderr. -/
structure GitResult where
  returncode : Int
  stdout : List Char
  stderr : List Char
deriving DecidableEq

/-- The replies of the version-control client to the five queries issued
by the enabled constructor, in order. -/
structure GitEnv where
  getUrl : GitResult
  addAll : GitResult
  commit : GitResult
  revParse : GitResult
  showAuthor : GitResult
deriving DecidableEq

/-- The reply to the `requests.put` call: the HTTP status code, and
`some j` when the body is JSON-decodable with decoded form `j`
(`response.json()` raises when the body is not valid JSON). -/
structure HttpResponse where
  status_code : Nat
  json_body : Option (List Char)
deriving DecidableEq

/-- `test_suite_version: str = "1.1.0"`. -/
def test_suite_version : List Char := "1.1.0".data

def gitRemoteEffect : Effect :=
  Effect.runGit ["git".data, "remote".data, "get-url".data, "origin".data]

def gitAddEffect : Effect := Effect.runGit ["git".data, "add".data, ".".data]

def gitCommitEffect : Effect :=
  Effect.runGit ["git".data, "commit".data, "-m".data, "Running test".data]

def gitRevParseEffect : Effect :=
  Effect.runGit ["git".data, "rev-parse".data, "HEAD".data]

def gitShowEffect : Effect :=
  Effect.runGit ["git".data, "show".data, "-s".data, "--format=\x27%an <%ae>\x27".data, "HEAD".data]

/-- The remediation message printed when `git commit` exits with status 1,
which is how the source recognises "nothing to commit". -/
def noChangesMessage : List Char :=
  "No changes detected in code base. Make changes before trying to run another test.".data

/-- `_ResultsLogger.__init__`.  `exit(1)` on a failing git step is
modelled as `Except.error (1, effects so far)`; `today` is the
`datetime.today().strftime("%m-%d-%Y-%H:%M:%S")` string. -/
def construct (is_verbose is_enabled : Bool) (git : GitEnv) (today : List Char) :
    Except (Int × List Effect) (LoggerState × List Effect) :=
  if is_enabled = false then
    .ok ({ is_verbose := is_verbose, is_enabled := false, pipeline_repo_url := [],
           commit_hash := [], executed_by := [], date_time := [],
           runtime := none, total_correct := 0 },
         [Effect.print "Results Logger is disabled".data])
  else if git.getUrl.returncode = 0 then
    -- self.__pipeline_repo_url = output.stdout[:-5]
    if git.addAll.returncode = 0 then
      if git.commit.returncode = 0 then
        if git.revParse.returncode = 0 then
          if git.showAuthor.returncode = 0 then
            .ok ({ is_verbose := is_verbose, is_enabled := true,
                   pipeline_repo_url :=
                     git.getUrl.stdout.take (git.getUrl.stdout.length - 5),
                   commit_hash :=
                     git.revParse.stdout.take (git.revParse.stdout.length - 1),
                   executed_by :=
                     git.showAuthor.stdout.take (git.showAuthor.stdout.length - 1),
                   date_time := today, runtime := none, total_correct := 0 },
                 [gitRemoteEffect, gitAddEffect, gitCommitEffect, gitRevParseEffect,
                  gitShowEffect,
                  Effect.print ("Created Results Logger for ".data ++
                    git.getUrl.stdout.take (git.getUrl.stdout.length - 5) ++
                    "/commit/".data ++
                    git.revParse.stdout.take (git.revParse.stdout.length - 1))])
          else .error (1, [gitRemoteEffect, gitAddEffect, gitCommitEffect,
                           gitRevParseEffect, gitShowEffect,
                           Effect.print git.showAuthor.stderr])
        else .error (1, [gitRemoteEffect, gitAddEffect, gitCommitEffect,
                         gitRevParseEffect, Effect.print git.revParse.stderr])
      else if git.commit.returncode = 1 then
        .error (1, [gitRemoteEffect, gitAddEffect, gitCommitEffect,
                    Effect.print noChangesMessage])
      else
        .error (1, [gitRemoteEffect, gitAddEffect, gitCommitEffect,
                    Effect.print git.commit.stderr])
    else .error (1, [gitRemoteEffect, gitAddEffect, Effect.print git.addAll.stderr])
  else .error (1, [gitRemoteEffect, Effect.print git.getUrl.stderr])

/-- The `f"Starting test at ... executed by ..."` notice; the display
rendering of the start instant is abbreviated to its decimal value. -/
def startLine (now : Nat) (executed_by : List Char) : List Char :=
  "Starting test at ".data ++ natToChars now ++ " executed by ".data ++ executed_by

/-- The per-call verbose line of `log_result`. -/
def verboseLine (dn iv dv pc cc : List Char) : List Char :=
  dn ++ ": ".data ++ iv ++ " -> ".data ++ dv ++ ", Predicted: ".data ++ pc ++
  ", Coded: ".data ++ cc

/-- `_ResultsLogger.log_result`: appends to the shared class containers,
counts an exact string match of predicted and coded, records the session
start instant on the first call, and prints the start / verbose notices. -/
def log_result (cs : ClassState) (st : LoggerState) (now : Nat)
    (document_name independent_variable dependent_variable
     predicted_classification coded_classification : List Char) :
    ClassState × LoggerState × List Effect :=
  if st.is_enabled = false then (cs, st, [])
  else
    ({ data := cs.data ++
         [{ document_name := document_name,
            independent_variable := independent_variable,
            dependent_variable := dependent_variable,
            predicted_classification := predicted_classification,
            coded_classification := coded_classification }],
       unique_documents := insert document_name cs.unique_documents },
     { st with
        runtime := some (match st.runtime with | none => now | some t => t),
        total_correct := st.total_correct +
          (if predicted_classification = coded_classification then 1 else 0) },
     (match st.runtime with
      | none => [Effect.print (startLine now st.executed_by)]
      | some _ => []) ++
     (if st.is_verbose then
        [Effect.print (verboseLine document_name independent_variable
          dependent_variable predicted_classification coded_classification)]
      else []))

/-- The accuracy line printed by `save_results`. -/
def accuracyLine (total_correct total : Nat) : List Char :=
  "Total Accuracy: ".data ++ fmt2 total_correct total ++ "% (".data ++
  natToChars total_correct ++ " / ".data ++ natToChars total ++
  " Coded Relations)".data

/-- The runtime line printed by `save_results`. -/
def runtimeLine (elapsed : Nat) : List Char :=
  "Test Runtime: ".data ++ timedeltaStr elapsed

/-- The fixed five-column header row of the CSV artifact. -/
def csvHeaderRow : List (List Char) :=
  ["Document Name".data, "Independent Variable".data, "Dependent Variable".data,
   "Predicted Classification".data, "Coded Classification".data]

/-- The records written by `save_results`: five metadata rows, a blank
row, the header row, one row per logged result in insertion order. -/
def buildCsvRows (st : LoggerState) (elapsed : Nat) (cs : ClassState) :
    List (List (List Char)) :=
  [["Pipeline".data, st.pipeline_repo_url ++ "/commit/".data ++ st.commit_hash],
   ["Executed By".data, st.executed_by],
   ["Date".data, st.date_time],
   ["Runtime".data, timedeltaStr elapsed],
   ["Total Documents".data, natToChars cs.unique_documents.card],
   [],
   csvHeaderRow] ++ cs.data.map Result.to_csv_row

/-- The full CSV document (`csv_string` in the source). -/
def csvDocument (st : LoggerState) (elapsed : Nat) (cs : ClassState) : List Char :=
  writeCsv (buildCsvRows st elapsed cs)

/-- The PUT target URL: a fixed namespace, then the last two `/`-separated
segments of the stored repository URL, then the session timestamp. -/
def putUrl (repoUrl dt : List Char) : List Char :=
  "https://api.github.com/repos/ai-unc/SLAE-test-suite-v1/contents/results/".data ++
  joinSep ['/'] ((pySplit '/' repoUrl).drop ((pySplit '/' repoUrl).length - 2)) ++
  '/' :: dt ++ ".csv".data

/-- The name of the local fallback file: `local_<last URL segment>_<timestamp>.csv`. -/
def localName (repoUrl dt : List Char) : List Char :=
  "local_".data ++ (pySplit '/' repoUrl).getLastD [] ++ '_' :: dt ++ ".csv".data

/-- The `Authorization` header; `os.getenv` yields `none` when the
variable is unset, which Python renders as the string `None`. -/
def authHeader (token : Option (List Char)) : List Char :=
  "token ".data ++ (match token with | some t => t | none => "None".data)

/-- The versioned `Accept` header. -/
def acceptHeader : List Char := "application/vnd.github.v3+json".data

/-- The commit message sent in the PUT payload. -/
def commitMessage : List Char :=
  "Automated Commit by Test Suite v".data ++ test_suite_version

/-- The `requests.put` call with its JSON payload, modelled structurally. -/
def putEffect (st : LoggerState) (elapsed : Nat) (cs : ClassState)
    (token : Option (List Char)) : Effect :=
  Effect.httpPut (putUrl st.pipeline_repo_url st.date_time) (authHeader token)
    acceptHeader commitMessage (base64Encode (utf8Encode (csvDocument st elapsed cs)))

/-- The two prints, the upload, all before the status check. -/
def preUploadEffects (cs : ClassState) (st : LoggerState) (elapsed : Nat)
    (token : Option (List Char)) : List Effect :=
  [Effect.print (accuracyLine st.total_correct cs.data.length),
   Effect.print (runtimeLine elapsed),
   putEffect st elapsed cs token]

/-- The two prints of the failed-upload branch that precede `response.json()`. -/
def failPrints (status : Nat) : List Effect :=
  [Effect.print "Failed to upload results".data,
   Effect.print ("Status Code: ".data ++ natToChars status)]

/-- `_ResultsLogger.save_results`.  With no logged result `self.__runtime`
is still `None`, so `datetime.now() - self.__runtime` raises `TypeError`
(were runtime set, `self.__total_correct / len(self.__data)` would raise
`ZeroDivisionError` on an empty data list); both are modelled as
`Except.error` carrying the effects already performed.  On a non-201
status, `response.json()` raises when the body is not JSON, *before* the
local file is written. -/
def save_results (cs : ClassState) (st : LoggerState) (now : Nat)
    (token : Option (List Char)) (response : HttpResponse) :
    Except (PyError × List Effect) (LoggerState × List Effect) :=
  if st.is_enabled = false then .ok (st, [])
  else
    match st.runtime with
    | none => .error (PyError.typeError, [])
    | some start =>
      if cs.data.length = 0 then .error (PyError.zeroDivisionError, [])
      else if response.status_code = 201 then
        .ok ({ st with runtime := some (now - start) },
             preUploadEffects cs st (now - start) token ++
             [Effect.print "Results uploaded to Test Suite repository".data])
      else
        match response.json_body with
        | none => .error (PyError.jsonDecodeError,
            preUploadEffects cs st (now - start) token ++
            failPrints response.status_code)
        | some j =>
          .ok ({ st with runtime := some (now - start) },
               preUploadEffects cs st (now - start) token ++
               failPrints response.status_code ++
               [Effect.print ("Response: ".data ++ j),
                Effect.print "Writing results to local csv file".data,
                Effect.writeFile (localName st.pipeline_repo_url st.date_time)
                  (csvDocument st (now - start) cs)])

/-- The effects performed by `save_results`, whether or not it raised. -/
def saveEffects (r : Except (PyError × List Effect) (LoggerState × List Effect)) :
    List Effect :=
  match r with
  | .ok (_, e) => e
  | .error (_, e) => e

/-- One invocation of `log_result`, with the instant of the call. -/
structure LogCall where
  document_name : List Char
  independent_variable : List Char
  dependent_variable : List Char
  predicted : List Char
  coded : List Char
  now : Nat
deriving DecidableEq

/-- The `Result` that `log_result` stores for a call. -/
def mkResult (c : LogCall) : Result :=
  { document_name := c.document_name,
    independent_variable := c.independent_variable,
    dependent_variable := c.dependent_variable,
    predicted_classification := c.predicted,
    coded_classification := c.coded }

/-- A sequence of `log_result` calls against one logger instance. -/
def runLogs : ClassState → LoggerState → List LogCall →
    ClassState × LoggerState × List Effect
  | cs, st, [] => (cs, st, [])
  | cs, st, c :: rest =>
    match log_result cs st c.now c.document_name c.independent_variable
        c.dependent_variable c.predicted c.coded with
    | (cs1, st1, e1) =>
      match runLogs cs1 st1 rest with
      | (cs2, st2, e2) => (cs2, st2, e1 ++ e2)

/-- The number of calls whose predicted and coded classifications agree
literally. -/
def countCorrect : List LogCall → Nat
  | [] => 0
  | c :: rest => (if c.predicted = c.coded then 1 else 0) + countCorrect rest

/-- The session-start slot after a sequence of calls: set by the first
call, untouched afterwards. -/
def runtimeAfter (r : Option Nat) : List LogCall → Option Nat
  | [] => r
  | c :: rest => runtimeAfter (some (match r with | none => c.now | some t => t)) rest

/-! ### Concrete fixtures used in witnesses and counterexamples -/

def todayA : List Char := "01-01-2026-10:00:00".data

def todayB : List Char := "01-01-2026-11:00:00".data

/-- Build one `subprocess.run` result. -/
def mkGitResult (rc : Int) (out err : List Char) : GitResult :=
  { returncode := rc, stdout := out, stderr := err }

/-- A version-control environment in which every step succeeds. -/
def gitW : GitEnv :=
  { getUrl := mkGitResult 0 "https://github.com/ai-unc/pipeline.git\n".data [],
    addAll := mkGitResult 0 [] [],
    commit := mkGitResult 0 [] [],
    revParse := mkGitResult 0 "abc123\n".data [],
    showAuthor := mkGitResult 0 "Ada <ada@unc.edu>\n".data [] }

/-- A second successful environment, for a second logger instance. -/
def gitWB : GitEnv :=
  { getUrl := mkGitResult 0 "https://github.com/ai-unc/pipeB.git\n".data [],
    addAll := mkGitResult 0 [] [],
    commit := mkGitResult 0 [] [],
    revParse := mkGitResult 0 "def456\n".data [],
    showAuthor := mkGitResult 0 "Bob <bob@unc.edu>\n".data [] }

/-- An environment whose commit step reports "nothing to commit" (exit 1). -/
def gitWNoChanges : GitEnv :=
  { gitW with commit := mkGitResult 1 [] [] }

/-- An environment whose commit step fails for another reason (exit 128). -/
def gitWCommitBoom : GitEnv :=
  { gitW with commit := mkGitResult 128 [] "fatal: unable to write commit\n".data }

/-- A freshly constructed enabled instance, written out explicitly. -/
def stW : LoggerState :=
  { is_verbose := false, is_enabled := true,
    pipeline_repo_url := "https://github.com/ai-unc/pipeline".data,
    commit_hash := "abc123".data,
    executed_by := "Ada <ada@unc.edu>".data,
    date_time := todayA, runtime := none, total_correct := 0 }

/-- The same instance mid-session: start instant recorded, one correct
result counted. -/
def stW2 : LoggerState := { stW with runtime := some 3, total_correct := 1 }

/-- The class containers holding one logged result. -/
def csW : ClassState :=
  { data := [{ document_name := "d1".data, independent_variable := "i1".data,
               dependent_variable := "v1".data, predicted_classification := "+".data,
               coded_classification := "+".data }],
    unique_documents := {"d1".data} }

def callD1 : LogCall :=
  { document_name := "doc1".data, independent_variable := "cause".data,
    dependent_variable := "effect".data, predicted := "+".data, coded := "+".data,
    now := 1 }

def callD2 : LogCall :=
  { document_name := "doc2".data, independent_variable := "cause2".data,
    dependent_variable := "effect2".data, predicted := "+".data, coded := "-".data,
    now := 2 }

def respOk : HttpResponse := { status_code := 201, json_body := none }

/-- A 500 reply whose body is not valid JSON (e.g. an HTML error page). -/
def respBad : HttpResponse := { status_code := 500, json_body := none }

/-- A 500 reply whose body decodes as JSON. -/
def respBadJson : HttpResponse := { status_code := 500, json_body := some "err".data }

/-- An environment whose origin URL does not end in `.git`. -/
def gitWSsh : GitEnv :=
  { gitW with getUrl := mkGitResult 0 "git@github.com:ai-unc/pipeline\n".data [] }

/-- Whether a `save_results` outcome is a raised JSON-decoding error whose
already-performed effects include no file write at all. -/
def raisedWithoutLocalFile
    (r : Except (PyError × List Effect) (LoggerState × List Effect)) : Bool :=
  match r with
  | .error (PyError.jsonDecodeError, effs) =>
    effs.all (fun e => match e with | Effect.writeFile _ _ => false | _ => true)
  | _ => false

/-- Two logger instances are constructed against the same module state;
the first logs `docA`, then the second logs `docB` and saves (the upload
fails, so the CSV lands in the local fallback file).  The value is the
list of document names in the data section of the CSV persisted by the
*second* instance, or `none` if any step did not go as described. -/
def crossInstanceDocuments : Option (List (List Char)) :=
  match construct false true gitW todayA, construct false true gitWB todayB with
  | .ok (stA, _), .ok (stB, _) =>
    match log_result initialClassState stA 1 "docA".data "iv1".data "dv1".data
        "+".data "+".data with
    | (cs1, _, _) =>
      match log_result cs1 stB 2 "docB".data "iv2".data "dv2".data
          "+".data "-".data with
      | (cs2, stB1, _) =>
        match save_results cs2 stB1 5 none respBadJson with
        | .ok (_, effs) =>
          match effs.getLast? with
          | some (Effect.writeFile _ content) =>
            match parseCsv content with
            | some rows => some ((rows.drop 7).map (fun row => row.headD []))
            | none => none
          | _ => none
        | .error _ => none
  | _, _ => none

/-! ### Round-trip lemmas for the CSV layer -/

theorem escapeField_length (f : List Char) : f.length ≤ (escapeField f).length := by
  induction f with
  | nil => simp [escapeField]
  | cons c rest ih =>
    by_cases hc : c = '\"' <;> simp [escapeField, hc] <;> omega

theorem parseQuotedF_escape (f : List Char) :
    ∀ fuel rest, f.length < fuel → rest.head? ≠ some '\"' →
      parseQuotedF fuel (escapeField f ++ '\"' :: rest) = some (f, rest) := by
  induction f with
  | nil =>
    intro fuel rest hf hr
    cases fuel with
    | zero => omega
    | succ fv =>
      cases rest with
      | nil => simp [escapeField, parseQuotedF]
      | cons c2 rest2 =>
        have hc2 : ¬ c2 = '\"' := by
          intro h
          exact hr (by simp [h])
        simp [escapeField, parseQuotedF, hc2]
  | cons c f0 ih =>
    intro fuel rest hf hr
    cases fuel with
    | zero => omega
    | succ fv =>
      have hf0 : f0.length < fv := by
        simp only [List.length_cons] at hf
        omega
      by_cases hc : c = '\"'
      · subst hc
        simp [escapeField, parseQuotedF, ih fv rest hf0 hr]
      · simp [escapeField, parseQuotedF, hc, ih fv rest hf0 hr]

theorem parseQuotedF_escape' (f rest : List Char) (hr : rest.head? ≠ some '\"') :
    parseQuotedF ((escapeField f ++ '\"' :: rest).length + 1)
      (escapeField f ++ '\"' :: rest) = some (f, rest) := by
  apply parseQuotedF_escape f _ rest _ hr
  have := escapeField_length f
  simp only [List.length_append, List.length_cons]
  omega

theorem parseFieldsF_row (fs : List (List Char)) :
    ∀ fuel rest, fs ≠ [] → fs.length < fuel →
      parseFieldsF fuel (joinSep [','] (fs.map writeField) ++ '\r' :: '\n' :: rest) =
        some (fs, rest) := by
  induction fs with
  | nil => intro fuel rest h _; exact absurd rfl h
  | cons f fs0 ih =>
    intro fuel rest _ hf
    cases fuel with
    | zero => simp at hf
    | succ fv =>
      cases fs0 with
      | nil =>
        have hq := parseQuotedF_escape' f ('\r' :: '\n' :: rest) (by simp)
        simp only [List.map_cons, List.map_nil, joinSep, writeField,
          List.cons_append, List.append_assoc, List.singleton_append,
          List.nil_append] at hq ⊢
        simp only [parseFieldsF, reduceIte, List.nil_append, hq]
      | cons f2 fs1 =>
        have hq := parseQuotedF_escape' f
          (',' :: (joinSep [','] ((f2 :: fs1).map writeField) ++ '\r' :: '\n' :: rest))
          (by simp)
        have hih := ih fv rest (by simp)
          (by simp only [List.length_cons] at hf ⊢; omega)
        simp only [List.map_cons, joinSep, writeField, List.cons_append,
          List.append_assoc, List.singleton_append, List.nil_append] at hq hih ⊢
        simp only [parseFieldsF, reduceIte, List.nil_append, hq, hih]

theorem joinSep_writeField_length (fs : List (List Char)) :
    fs.length ≤ (joinSep [','] (fs.map writeField)).length + 1 := by
  induction fs with
  | nil => simp [joinSep]
  | cons f fs0 ih =>
    cases fs0 with
    | nil => simp [joinSep, writeField]
    | cons f2 fs1 =>
      simp only [List.map_cons, joinSep, List.length_append, List.length_cons,
        writeField] at ih ⊢
      omega

theorem writeCsv_cons (r : List (List Char)) (rows : List (List (List Char))) :
    writeCsv (r :: rows) = writeRow r ++ writeCsv rows := by
  simp [writeCsv]

theorem writeCsv_length (rows : List (List (List Char))) :
    rows.length ≤ (writeCsv rows).length := by
  induction rows with
  | nil => simp [writeCsv]
  | cons r rows0 ih =>
    rw [writeCsv_cons]
    simp only [List.length_append, List.length_cons, writeRow] at ih ⊢
    omega

theorem parseRecordsF_writeCsv (rows : List (List (List Char))) :
    ∀ fuel, rows.length ≤ fuel → parseRecordsF fuel (writeCsv rows) = some rows := by
  induction rows with
  | nil => intro fuel _; simp [writeCsv, parseRecordsF]
  | cons r rows0 ih =>
    intro fuel hf
    cases fuel with
    | zero => simp at hf
    | succ fv =>
      have hih := ih fv (by simp only [List.length_cons] at hf; omega)
      cases r with
      | nil =>
        have hshape : writeCsv ([] :: rows0) = '\r' :: '\n' :: writeCsv rows0 := by
          simp [writeCsv, writeRow, joinSep]
        rw [hshape]
        simp only [parseRecordsF, reduceIte, hih]
      | cons f fs0 =>
        obtain ⟨u, hu⟩ : ∃ u, joinSep [','] ((f :: fs0).map writeField) = '\"' :: u := by
          cases fs0 with
          | nil => exact ⟨escapeField f ++ ['\"'], by simp [joinSep, writeField]⟩
          | cons f2 fs1 =>
            exact ⟨escapeField f ++ '\"' :: ',' ::
                joinSep [','] ((f2 :: fs1).map writeField),
              by simp [joinSep, writeField, List.append_assoc]⟩
        have hshape : writeCsv ((f :: fs0) :: rows0) =
            '\"' :: (u ++ '\r' :: '\n' :: writeCsv rows0) := by
          rw [writeCsv_cons]
          simp only [writeRow]
          rw [hu]
          simp [List.append_assoc]
        have h2 : '\"' :: (u ++ '\r' :: '\n' :: writeCsv rows0) =
            joinSep [','] ((f :: fs0).map writeField) ++ '\r' :: '\n' :: writeCsv rows0 := by
          rw [hu]
          simp
        have hfields : parseFieldsF
            (('\"' :: (u ++ '\r' :: '\n' :: writeCsv rows0)).length + 1)
            ('\"' :: (u ++ '\r' :: '\n' :: writeCsv rows0)) =
            some (f :: fs0, writeCsv rows0) := by
          rw [h2]
          apply parseFieldsF_row (f :: fs0) _ (writeCsv rows0) (by simp)
          have := joinSep_writeField_length (f :: fs0)
          simp only [List.length_append, List.length_cons] at this ⊢
          omega
        rw [hshape]
        simp only [parseRecordsF, hfields, hih]
        rw [if_neg (by decide)]

theorem parseCsv_writeCsv (rows : List (List (List Char))) :
    parseCsv (writeCsv rows) = some rows := by
  apply parseRecordsF_writeCsv
  have := writeCsv_length rows
  omega

theorem runLogs_cons (cs : ClassState) (st : LoggerState) (c : LogCall)
    (rest : List LogCall) :
    runLogs cs st (c :: rest) =
      ((runLogs (log_result cs st c.now c.document_name c.independent_variable
          c.dependent_variable c.predicted c.coded).1
        (log_result cs st c.now c.document_name c.independent_variable
          c.dependent_variable c.predicted c.coded).2.1 rest).1,
       (runLogs (log_result cs st c.now c.document_name c.independent_variable
          c.dependent_variable c.predicted c.coded).1
        (log_result cs st c.now c.document_name c.independent_variable
          c.dependent_variable c.predicted c.coded).2.1 rest).2.1,
       (log_result cs st c.now c.document_name c.independent_variable
          c.dependent_variable c.predicted c.coded).2.2 ++
       (runLogs (log_result cs st c.now c.document_name c.independent_variable
          c.dependent_variable c.predicted c.coded).1
        (log_result cs st c.now c.document_name c.independent_variable
          c.dependent_variable c.predicted c.coded).2.1 rest).2.2) := rfl

theorem runLogs_disabled (calls : List LogCall) :
    ∀ cs st, st.is_enabled = false → runLogs cs st calls = (cs, st, []) := by
  induction calls with
  | nil => intro cs st _; simp [runLogs]
  | cons c rest ih =>
    intro cs st h
    rw [runLogs_cons]
    simp [log_result, h, ih _ _ h]

theorem runtimeAfter_some (t : Nat) (calls : List LogCall) :
    runtimeAfter (some t) calls = some t := by
  induction calls with
  | nil => rfl
  | cons c rest ih => simpa [runtimeAfter] using ih

theorem runtimeAfter_none_cons (c : LogCall) (rest : List LogCall) :
    runtimeAfter none (c :: rest) = some c.now := by
  simp [runtimeAfter, runtimeAfter_some]

theorem runLogs_enabled (calls : List LogCall) :
    ∀ cs st, st.is_enabled = true →
      (runLogs cs st calls).1.data = cs.data ++ calls.map mkResult ∧
      (runLogs cs st calls).1.unique_documents =
        cs.unique_documents ∪ (calls.map LogCall.document_name).toFinset ∧
      (runLogs cs st calls).2.1 =
        { st with
            total_correct := st.total_correct + countCorrect calls,
            runtime := runtimeAfter st.runtime calls } := by
  induction calls with
  | nil =>
    intro cs st _
    simp [runLogs, countCorrect, runtimeAfter]
  | cons c rest ih =>
    intro cs st hen
    have hlog1 : (log_result cs st c.now c.document_name c.independent_variable
        c.dependent_variable c.predicted c.coded).1 =
        { data := cs.data ++ [mkResult c],
          unique_documents := insert c.document_name cs.unique_documents } := by
      simp [log_result, hen, mkResult]
    have hlog2 : (log_result cs st c.now c.document_name c.independent_variable
        c.dependent_variable c.predicted c.coded).2.1 =
        { st with
            runtime := some (match st.runtime with | none => c.now | some t => t),
            total_correct := st.total_correct +
              (if c.predicted = c.coded then 1 else 0) } := by
      simp [log_result, hen]
    obtain ⟨ih1, ih2, ih3⟩ :=
      ih { data := cs.data ++ [mkResult c],
           unique_documents := insert c.document_name cs.unique_documents }
         { st with
            runtime := some (match st.runtime with | none => c.now | some t => t),
            total_correct := st.total_correct +
              (if c.predicted = c.coded then 1 else 0) }
         (by simp [hen])
    rw [runLogs_cons, hlog1, hlog2]
    refine ⟨?_, ?_, ?_⟩
    · rw [ih1]
      simp [List.append_assoc]
    · rw [ih2]
      simp [Finset.insert_union, Finset.union_insert]
    · rw [ih3]
      simp [countCorrect, runtimeAfter, Nat.add_assoc]

/-- C3: constructing with enabled=false prints only the disabled notice and
performs no git call; any number of `log_result` calls and a `save_results`
leave both the class containers and the instance state unchanged and
produce no effect at all (no subprocess, no HTTP request, no file write). -/
theorem c3_disabled_logger_is_noop (iv : Bool) (git : GitEnv) (today : List Char)
    (cs : ClassState) (calls : List LogCall) (now : Nat)
    (token : Option (List Char)) (resp : HttpResponse) :
    ∃ st : LoggerState,
      construct iv false git today =
        .ok (st, [Effect.print "Results Logger is disabled".data]) ∧
      st.is_enabled = false ∧
      runLogs cs st calls = (cs, st, []) ∧
      save_results cs st now token resp = .ok (st, []) := by
  refine ⟨{ is_verbose := iv, is_enabled := false, pipeline_repo_url := [],
            commit_hash := [], executed_by := [], date_time := [],
            runtime := none, total_correct := 0 }, ?_, rfl, ?_, ?_⟩
  · simp [construct]
  · exact runLogs_disabled calls cs _ rfl
  · simp [save_results]

/-- C5: the result list and document set are class-level mutable defaults,
so they are shared between logger instances.  Concretely: instance A is
constructed and logs `docA`; instance B is constructed separately, logs
`docB`, and saves; the CSV that B persists contains A's row.  This
contradicts the invariant that every Result belongs to exactly one
session. -/
theorem c5_results_leak_across_instances :
    crossInstanceDocuments = some ["docA".data, "docB".data] := by
  rfl

/-- C8: during enabled construction, after the remote-URL and staging steps
succeed, a commit exit status of 1 (how the source detects "nothing to
commit") terminates with exit code 1 and the remediation message, and any
other non-zero commit exit status terminates with exit code 1 and the
client's stderr verbatim; in both cases the constructor never returns, so
no Result can be logged. -/
theorem c8_commit_failure_paths (iv : Bool) (git : GitEnv) (today : List Char)
    (h1 : git.getUrl.returncode = 0) (h2 : git.addAll.returncode = 0)
    (h3 : git.commit.returncode ≠ 0) :
    construct iv true git today =
      .error (1, [gitRemoteEffect, gitAddEffect, gitCommitEffect,
        Effect.print (if git.commit.returncode = 1 then noChangesMessage
                      else git.commit.stderr)]) ∧
    (1 : Int) ≠ 0 := by
  constructor
  · by_cases hc : git.commit.returncode = 1 <;>
      simp [construct, h1, h2, h3, hc]
  · decide

theorem c8_commit_failure_paths_witness :
    (gitWNoChanges.getUrl.returncode = 0 ∧ gitWNoChanges.addAll.returncode = 0 ∧
      gitWNoChanges.commit.returncode ≠ 0 ∧
      gitWCommitBoom.getUrl.returncode = 0 ∧ gitWCommitBoom.addAll.returncode = 0 ∧
      gitWCommitBoom.commit.returncode ≠ 0) ∧
    (construct false true gitWNoChanges todayA =
      .error (1, [gitRemoteEffect, gitAddEffect, gitCommitEffect,
        Effect.print (if gitWNoChanges.commit.returncode = 1 then noChangesMessage
                      else gitWNoChanges.commit.stderr)]) ∧ (1 : Int) ≠ 0) ∧
    (construct false true gitWCommitBoom todayA =
      .error (1, [gitRemoteEffect, gitAddEffect, gitCommitEffect,
        Effect.print (if gitWCommitBoom.commit.returncode = 1 then noChangesMessage
                      else gitWCommitBoom.commit.stderr)]) ∧ (1 : Int) ≠ 0) :=
  ⟨by decide,
   c8_commit_failure_paths false gitWNoChanges todayA rfl rfl (by decide),
   c8_commit_failure_paths false gitWCommitBoom todayA rfl rfl (by decide)⟩

/-- C7: an enabled `log_result` call appends exactly one Result holding the
literal arguments, adds the document name to the distinct-document set, and
increments the correct count exactly when predicted equals coded as
strings; it is a total function on ordinary input.  Together with the
concrete scenario: after logging ("doc1","cause","effect","+","+") and
("doc2","cause2","effect2","+","-"), the set holds 2 documents, the
accuracy line reads 50.00% with the fraction 1 / 2, and the CSV data
section holds exactly the two rows verbatim. -/
theorem c7_log_result_step_and_scenario (cs : ClassState) (st : LoggerState)
    (hen : st.is_enabled = true) (now : Nat) (dn iv dv pc cc : List Char) :
    ((log_result cs st now dn iv dv pc cc).1.data =
        cs.data ++ [{ document_name := dn, independent_variable := iv,
                      dependent_variable := dv, predicted_classification := pc,
                      coded_classification := cc }] ∧
      (log_result cs st now dn iv dv pc cc).1.unique_documents =
        insert dn cs.unique_documents ∧
      (log_result cs st now dn iv dv pc cc).2.1.total_correct =
        st.total_correct + (if pc = cc then 1 else 0)) ∧
    ((runLogs initialClassState stW [callD1, callD2]).1.unique_documents.card = 2 ∧
      (saveEffects (save_results (runLogs initialClassState stW [callD1, callD2]).1
          (runLogs initialClassState stW [callD1, callD2]).2.1 9 none respOk)).head? =
        some (Effect.print "Total Accuracy: 50.00% (1 / 2 Coded Relations)".data) ∧
      (buildCsvRows (runLogs initialClassState stW [callD1, callD2]).2.1 8
          (runLogs initialClassState stW [callD1, callD2]).1).drop 7 =
        [["doc1".data, "cause".data, "effect".data, "+".data, "+".data],
         ["doc2".data, "cause2".data, "effect2".data, "+".data, "-".data]]) := by
  constructor
  · refine ⟨?_, ?_, ?_⟩ <;> simp [log_result, hen]
  · refine ⟨by decide, by decide, by decide⟩

theorem c7_log_result_step_and_scenario_witness :
    stW.is_enabled = true ∧
    (log_result initialClassState stW 1 "doc1".data "cause".data "effect".data
        "+".data "+".data).1.data =
      initialClassState.data ++
        [{ document_name := "doc1".data, independent_variable := "cause".data,
           dependent_variable := "effect".data,
           predicted_classification := "+".data,
           coded_classification := "+".data }] :=
  ⟨rfl, (c7_log_result_step_and_scenario initialClassState stW rfl 1 "doc1".data
    "cause".data "effect".data "+".data "+".data).1.1⟩

/-- C10: the enabled constructor stores the origin-URL output with its last
five characters removed (intended to strip ".git" plus the trailing
newline); hence whenever the client's output `u ++ "\n"` does not end in
".git", the stored URL, which feeds the CSV Pipeline row, the PUT path and
the local fallback file name, is a proper (truncated) prefix of the true
remote URL `u`. -/
theorem c10_url_truncation (iv : Bool) (git : GitEnv) (today u : List Char)
    (hout : git.getUrl.stdout = u ++ ['\n'])
    (h1 : git.getUrl.returncode = 0) (h2 : git.addAll.returncode = 0)
    (h3 : git.commit.returncode = 0) (h4 : git.revParse.returncode = 0)
    (h5 : git.showAuthor.returncode = 0) :
    ∃ st effs, construct iv true git today = .ok (st, effs) ∧
      st.pipeline_repo_url =
        git.getUrl.stdout.take (git.getUrl.stdout.length - 5) ∧
      (u ≠ [] → ¬ (".git".data <:+ u) →
        st.pipeline_repo_url ≠ u ∧ st.pipeline_repo_url <+: u) := by
  refine ⟨{ is_verbose := iv, is_enabled := true,
            pipeline_repo_url :=
              git.getUrl.stdout.take (git.getUrl.stdout.length - 5),
            commit_hash := git.revParse.stdout.take (git.revParse.stdout.length - 1),
            executed_by := git.showAuthor.stdout.take (git.showAuthor.stdout.length - 1),
            date_time := today, runtime := none, total_correct := 0 },
          [gitRemoteEffect, gitAddEffect, gitCommitEffect, gitRevParseEffect,
           gitShowEffect,
           Effect.print ("Created Results Logger for ".data ++
             git.getUrl.stdout.take (git.getUrl.stdout.length - 5) ++
             "/commit/".data ++
             git.revParse.stdout.take (git.revParse.stdout.length - 1))],
          ?_, rfl, ?_⟩
  · simp [construct, h1, h2, h3, h4, h5]
  · intro hu _
    have htake : git.getUrl.stdout.take (git.getUrl.stdout.length - 5) =
        u.take (u.length - 4) := by
      rw [hout]
      have hl2 : (u ++ ['\n']).length - 5 = u.length - 4 := by simp
      rw [hl2, List.take_append_of_le_length (by omega)]
    constructor
    · rw [htake]
      intro hcontra
      have := congrArg List.length hcontra
      simp [List.length_take] at this
      have : u.length = 0 := by omega
      exact hu (List.length_eq_zero.mp this)
    · rw [htake]
      exact List.take_prefix _ _

theorem c10_url_truncation_witness :
    (gitWSsh.getUrl.stdout = "git@github.com:ai-unc/pipeline".data ++ ['\n'] ∧
      gitWSsh.getUrl.returncode = 0 ∧ gitWSsh.addAll.returncode = 0 ∧
      gitWSsh.commit.returncode = 0 ∧ gitWSsh.revParse.returncode = 0 ∧
      gitWSsh.showAuthor.returncode = 0) ∧
    (∃ st effs, construct false true gitWSsh todayA = .ok (st, effs) ∧
      st.pipeline_repo_url =
        gitWSsh.getUrl.stdout.take (gitWSsh.getUrl.stdout.length - 5) ∧
      ("git@github.com:ai-unc/pipeline".data ≠ [] →
        ¬ (".git".data <:+ "git@github.com:ai-unc/pipeline".data) →
        st.pipeline_repo_url ≠ "git@github.com:ai-unc/pipeline".data ∧
        st.pipeline_repo_url <+: "git@github.com:ai-unc/pipeline".data)) :=
  ⟨by decide,
   c10_url_truncation false gitWSsh todayA "git@github.com:ai-unc/pipeline".data
     (by decide) rfl rfl rfl rfl rfl⟩

theorem saveEffects_head (cs : ClassState) (st : LoggerState) (now : Nat)
    (token : Option (List Char)) (resp : HttpResponse)
    (hen : st.is_enabled = true) (t : Nat) (hrt : st.runtime = some t)
    (hd : cs.data.length ≠ 0) :
    (saveEffects (save_results cs st now token resp)).head? =
      some (Effect.print (accuracyLine st.total_correct cs.data.length)) := by
  by_cases h201 : resp.status_code = 201
  · simp [save_results, hen, hrt, hd, h201, saveEffects, preUploadEffects]
  · cases hj : resp.json_body <;>
      simp [save_results, hen, hrt, hd, h201, hj, saveEffects, preUploadEffects]

/-- C1: for a fresh enabled session, the accuracy line printed first by
`save_results` is the count of calls with predicted equal to coded over
the total number of calls, formatted as a percentage with two decimals
and the literal fraction; and with zero logged results `save_results`
raises (in the source, `datetime.now() - None` is a `TypeError`; the
division by the empty list's length would likewise raise) having produced
no output and no result. -/
theorem c1_accuracy_formula_and_zero_rows (st0 : LoggerState)
    (hen : st0.is_enabled = true) (hrt : st0.runtime = none)
    (htc : st0.total_correct = 0) (calls : List LogCall) (now : Nat)
    (token : Option (List Char)) (resp : HttpResponse) :
    (calls = [] →
      save_results (runLogs initialClassState st0 calls).1
        (runLogs initialClassState st0 calls).2.1 now token resp =
        .error (PyError.typeError, [])) ∧
    (calls ≠ [] →
      (saveEffects (save_results (runLogs initialClassState st0 calls).1
          (runLogs initialClassState st0 calls).2.1 now token resp)).head? =
        some (Effect.print (accuracyLine (countCorrect calls) calls.length))) := by
  constructor
  · intro h
    subst h
    simp [runLogs, save_results, hen, hrt]
  · intro hne
    obtain ⟨h1, h2, h3⟩ := runLogs_enabled calls initialClassState st0 hen
    cases calls with
    | nil => exact absurd rfl hne
    | cons c rest =>
      have hst : (runLogs initialClassState st0 (c :: rest)).2.1.is_enabled = true := by
        rw [h3]; exact hen
      have hrt1 : (runLogs initialClassState st0 (c :: rest)).2.1.runtime =
          some c.now := by
        rw [h3]
        show runtimeAfter st0.runtime (c :: rest) = some c.now
        rw [hrt, runtimeAfter_none_cons]
      have hd1 : (runLogs initialClassState st0 (c :: rest)).1.data.length ≠ 0 := by
        rw [h1]; simp
      rw [saveEffects_head _ _ now token resp hst c.now hrt1 hd1]
      have htc1 : (runLogs initialClassState st0 (c :: rest)).2.1.total_correct =
          countCorrect (c :: rest) := by
        rw [h3]
        show st0.total_correct + countCorrect (c :: rest) = countCorrect (c :: rest)
        rw [htc, Nat.zero_add]
      have hlen1 : (runLogs initialClassState st0 (c :: rest)).1.data.length =
          (c :: rest).length := by
        rw [h1]; simp [initialClassState]
      rw [htc1, hlen1]

theorem c1_accuracy_formula_and_zero_rows_witness :
    (stW.is_enabled = true ∧ stW.runtime = none ∧ stW.total_correct = 0) ∧
    save_results (runLogs initialClassState stW []).1
      (runLogs initialClassState stW []).2.1 5 none respOk =
      .error (PyError.typeError, []) ∧
    (saveEffects (save_results (runLogs initialClassState stW [callD1, callD2]).1
        (runLogs initialClassState stW [callD1, callD2]).2.1 9 none respOk)).head? =
      some (Effect.print (accuracyLine (countCorrect [callD1, callD2])
        [callD1, callD2].length)) :=
  ⟨⟨rfl, rfl, rfl⟩,
   (c1_accuracy_formula_and_zero_rows stW rfl rfl rfl [] 5 none respOk).1 rfl,
   (c1_accuracy_formula_and_zero_rows stW rfl rfl rfl [callD1, callD2] 9 none
     respOk).2 (by decide)⟩

/-- C6: after any sequence of calls in one fresh session, the value in the
"Total Documents" CSV row (record index 4) is the size of the set of
distinct document identifiers across the calls (duplicates collapse), and
that size is at most the number of logged results. -/
theorem c6_distinct_document_count (st0 : LoggerState)
    (hen : st0.is_enabled = true) (calls : List LogCall) (elapsed : Nat) :
    (buildCsvRows (runLogs initialClassState st0 calls).2.1 elapsed
        (runLogs initialClassState st0 calls).1)[4]? =
      some ["Total Documents".data,
        natToChars (calls.map LogCall.document_name).toFinset.card] ∧
    (calls.map LogCall.document_name).toFinset.card ≤
      (runLogs initialClassState st0 calls).1.data.length := by
  obtain ⟨h1, h2, h3⟩ := runLogs_enabled calls initialClassState st0 hen
  constructor
  · have hu : (runLogs initialClassState st0 calls).1.unique_documents =
        (calls.map LogCall.document_name).toFinset := by
      rw [h2]; simp [initialClassState]
    simp [buildCsvRows, hu]
  · have h := List.toFinset_card_le (α := List Char) (calls.map LogCall.document_name)
    rw [h1]
    simpa [initialClassState] using h

theorem c6_distinct_document_count_witness :
    stW.is_enabled = true ∧
    (buildCsvRows (runLogs initialClassState stW [callD1, callD2, callD1]).2.1 8
        (runLogs initialClassState stW [callD1, callD2, callD1]).1)[4]? =
      some ["Total Documents".data,
        natToChars ([callD1, callD2, callD1].map LogCall.document_name).toFinset.card] ∧
    ([callD1, callD2, callD1].map LogCall.document_name).toFinset.card ≤
      (runLogs initialClassState stW [callD1, callD2, callD1]).1.data.length :=
  ⟨rfl, c6_distinct_document_count stW rfl [callD1, callD2, callD1] 8⟩

/-- C2: the CSV document that `save_results` persists parses back, in
order, to exactly the five metadata records (Pipeline with
url/commit/hash, Executed By, Date, Runtime, Total Documents with the
distinct-document count), one blank record, the fixed five-column header,
and one record per logged Result in insertion order whose fields are the
literal `log_result` arguments; every field is written quoted
(`QUOTE_ALL`), and parsing undoes the quoting. -/
theorem c2_csv_layout_roundtrip (st0 : LoggerState)
    (hen : st0.is_enabled = true) (calls : List LogCall) (elapsed : Nat) :
    parseCsv (csvDocument (runLogs initialClassState st0 calls).2.1 elapsed
        (runLogs initialClassState st0 calls).1) =
      some ([["Pipeline".data,
              st0.pipeline_repo_url ++ "/commit/".data ++ st0.commit_hash],
             ["Executed By".data, st0.executed_by],
             ["Date".data, st0.date_time],
             ["Runtime".data, timedeltaStr elapsed],
             ["Total Documents".data,
              natToChars (calls.map LogCall.document_name).toFinset.card],
             [],
             csvHeaderRow] ++
            calls.map (fun c => [c.document_name, c.independent_variable,
              c.dependent_variable, c.predicted, c.coded])) := by
  obtain ⟨h1, h2, h3⟩ := runLogs_enabled calls initialClassState st0 hen
  have hrows : buildCsvRows (runLogs initialClassState st0 calls).2.1 elapsed
      (runLogs initialClassState st0 calls).1 =
      [["Pipeline".data,
        st0.pipeline_repo_url ++ "/commit/".data ++ st0.commit_hash],
       ["Executed By".data, st0.executed_by],
       ["Date".data, st0.date_time],
       ["Runtime".data, timedeltaStr elapsed],
       ["Total Documents".data,
        natToChars (calls.map LogCall.document_name).toFinset.card],
       [],
       csvHeaderRow] ++
      calls.map (fun c => [c.document_name, c.independent_variable,
        c.dependent_variable, c.predicted, c.coded]) := by
    simp only [initialClassState] at h1 h2 h3
    simp only [buildCsvRows, initialClassState]
    simp [h1, h2, h3, mkResult, Result.to_csv_row, List.map_map, Function.comp]
  simp only [csvDocument]
  rw [hrows]
  exact parseCsv_writeCsv _

theorem c2_csv_layout_roundtrip_witness :
    stW.is_enabled = true ∧
    parseCsv (csvDocument (runLogs initialClassState stW [callD1, callD2]).2.1 8
        (runLogs initialClassState stW [callD1, callD2]).1) =
      some ([["Pipeline".data,
              stW.pipeline_repo_url ++ "/commit/".data ++ stW.commit_hash],
             ["Executed By".data, stW.executed_by],
             ["Date".data, stW.date_time],
             ["Runtime".data, timedeltaStr 8],
             ["Total Documents".data,
              natToChars ([callD1, callD2].map LogCall.document_name).toFinset.card],
             [],
             csvHeaderRow] ++
            [callD1, callD2].map (fun c => [c.document_name, c.independent_variable,
              c.dependent_variable, c.predicted, c.coded])) :=
  ⟨rfl, c2_csv_layout_roundtrip stW rfl [callD1, callD2] 8⟩

/-- C4 (amended): a 201 status — the sole success case — makes
`save_results` print the success notice and perform no file write; a
non-201 status with a JSON-decodable body makes it report the status and
the decoded body and then write the local fallback file
`local_<repo-name>_<session-timestamp>.csv` holding the very CSV document
whose base64 encoding was uploaded; a non-201 status with a body that is
not JSON-decodable makes `response.json()` raise after the status report,
so no local file is written (the case the original claim missed). -/
theorem c4_upload_fallback (cs : ClassState) (st : LoggerState) (now : Nat)
    (token : Option (List Char)) (resp : HttpResponse)
    (hen : st.is_enabled = true) (t : Nat) (hrt : st.runtime = some t)
    (hd : cs.data.length ≠ 0) :
    (resp.status_code = 201 →
      save_results cs st now token resp =
        .ok ({ st with runtime := some (now - t) },
          preUploadEffects cs st (now - t) token ++
          [Effect.print "Results uploaded to Test Suite repository".data])) ∧
    (∀ j, resp.status_code ≠ 201 → resp.json_body = some j →
      save_results cs st now token resp =
        .ok ({ st with runtime := some (now - t) },
          preUploadEffects cs st (now - t) token ++
          failPrints resp.status_code ++
          [Effect.print ("Response: ".data ++ j),
           Effect.print "Writing results to local csv file".data,
           Effect.writeFile (localName st.pipeline_repo_url st.date_time)
             (csvDocument st (now - t) cs)])) ∧
    (resp.status_code ≠ 201 → resp.json_body = none →
      save_results cs st now token resp =
        .error (PyError.jsonDecodeError,
          preUploadEffects cs st (now - t) token ++
          failPrints resp.status_code)) := by
  refine ⟨?_, ?_, ?_⟩
  · intro h201
    simp [save_results, hen, hrt, hd, h201]
  · intro j hno hj
    simp [save_results, hen, hrt, hd, hno, hj]
  · intro hno hj
    simp [save_results, hen, hrt, hd, hno, hj]

/-- C4 counterexample: with one logged result and a 500 reply whose body
is not valid JSON (say, an HTML error page), `save_results` raises a
JSON-decoding error and none of the effects it performed is a file write:
no local fallback file is created, while the claim as stated promises one
for every non-201 status. -/
theorem c4_counterexample_unparsable_body :
    raisedWithoutLocalFile (save_results csW stW2 10 (some "tok".data) respBad) =
      true := by
  rfl

theorem c4_upload_fallback_witness :
    (stW2.is_enabled = true ∧ stW2.runtime = some 3 ∧ csW.data.length ≠ 0 ∧
      respBadJson.status_code ≠ 201 ∧ respBadJson.json_body = some "err".data) ∧
    save_results csW stW2 10 none respBadJson =
      .ok ({ stW2 with runtime := some (10 - 3) },
        preUploadEffects csW stW2 (10 - 3) none ++
        failPrints respBadJson.status_code ++
        [Effect.print ("Response: ".data ++ "err".data),
         Effect.print "Writing results to local csv file".data,
         Effect.writeFile (localName stW2.pipeline_repo_url stW2.date_time)
           (csvDocument stW2 (10 - 3) csW)]) :=
  ⟨by decide,
   (c4_upload_fallback csW stW2 10 none respBadJson rfl 3 rfl (by decide)).2.1
     "err".data (by decide) rfl⟩

/-- C9: in every outcome branch, the PUT issued by `save_results` (the
third performed effect, after the accuracy and runtime prints) targets
`https://api.github.com/repos/ai-unc/SLAE-test-suite-v1/contents/results/<owner>/<name>/<timestamp>.csv`
where owner and name are the last two `/`-separated segments of the stored
repository URL; it carries the Authorization header `token <GITHUB_TOKEN>`
and the versioned accept header, and its JSON payload holds the commit
message string and the base64 encoding of the exact CSV bytes. -/
theorem c9_put_request_shape (cs : ClassState) (st : LoggerState) (now : Nat)
    (tk : List Char) (resp : HttpResponse)
    (hen : st.is_enabled = true) (t : Nat) (hrt : st.runtime = some t)
    (hd : cs.data.length ≠ 0) (pre : List (List Char)) (owner name : List Char)
    (hsplit : pySplit '/' st.pipeline_repo_url = pre ++ [owner, name]) :
    (saveEffects (save_results cs st now (some tk) resp))[2]? =
      some (Effect.httpPut
        ("https://api.github.com/repos/ai-unc/SLAE-test-suite-v1/contents/results/".data
          ++ (owner ++ '/' :: name) ++ '/' :: st.date_time ++ ".csv".data)
        ("token ".data ++ tk)
        "application/vnd.github.v3+json".data
        "Automated Commit by Test Suite v1.1.0".data
        (base64Encode (utf8Encode (csvDocument st (now - t) cs)))) := by
  have hput : (saveEffects (save_results cs st now (some tk) resp))[2]? =
      some (putEffect st (now - t) cs (some tk)) := by
    by_cases h201 : resp.status_code = 201
    · simp [save_results, hen, hrt, hd, h201, saveEffects, preUploadEffects]
    · cases hj : resp.json_body <;>
        simp [save_results, hen, hrt, hd, h201, hj, saveEffects, preUploadEffects]
  have hurl : putUrl st.pipeline_repo_url st.date_time =
      "https://api.github.com/repos/ai-unc/SLAE-test-suite-v1/contents/results/".data
        ++ (owner ++ '/' :: name) ++ '/' :: st.date_time ++ ".csv".data := by
    simp only [putUrl, hsplit]
    have hidx : (pre ++ [owner, name]).length - 2 = pre.length := by simp
    rw [hidx, List.drop_left]
    simp [joinSep]
  rw [hput]
  have hauth : authHeader (some tk) = "token ".data ++ tk := rfl
  have hmsg : commitMessage = "Automated Commit by Test Suite v1.1.0".data := by decide
  have hacc : acceptHeader = "application/vnd.github.v3+json".data := rfl
  simp only [putEffect, hurl, hauth, hmsg, hacc]

theorem c9_put_request_shape_witness :
    (stW2.is_enabled = true ∧ stW2.runtime = some 3 ∧ csW.data.length ≠ 0 ∧
      pySplit '/' stW2.pipeline_repo_url =
        ["https:".data, [], "github.com".data] ++ ["ai-unc".data, "pipeline".data]) ∧
    (saveEffects (save_results csW stW2 10 (some "tok".data) respOk))[2]? =
      some (Effect.httpPut
        ("https://api.github.com/repos/ai-unc/SLAE-test-suite-v1/contents/results/".data
          ++ ("ai-unc".data ++ '/' :: "pipeline".data) ++ '/' :: stW2.date_time
          ++ ".csv".data)
        ("token ".data ++ "tok".data)
        "application/vnd.github.v3+json".data
        "Automated Commit by Test Suite v1.1.0".data
        (base64Encode (utf8Encode (csvDocument stW2 (10 - 3) csW)))) :=
  ⟨by decide,
   c9_put_request_shape csW stW2 10 "tok".data respOk rfl 3 rfl (by decide)
     ["https:".data, [], "github.com".data] "ai-unc".data "pipeline".data
     (by decide)⟩
